import Mathlib

/-!
Verification of the outsource-ats application pipeline.

A shallow embedding of the backend's core logic, translated from the Python
source under `backend/app`:

* enumerations (`ApplicationStatus`, `SLAStatus`, `JDStatus`, `InterviewStatus`,
  `OfferStatus`, `JoiningStatus`, `UserRole`, `Permission`) from
  `app/models/*.py` and `app/core/permissions.py`;
* the SLA calculator `calculate_sla` from
  `app/api/v1/endpoints/applications.py`;
* the pipeline endpoints (`create_application`, `update_application`,
  `update_application_status`, `submit_to_client`, `reject_application`) from
  the same file, plus the cross-entity creators `create_interview`
  (`interviews.py`), `create_offer` (`offers.py`) and `create_joining`
  (`joinings.py`);
* the authentication guard `get_current_user` (`app/api/deps.py`) over the
  token functions of `app/core/security.py`;
* the permission matrix `has_permission` (`app/core/permissions.py`).

Dates are modelled as `Int` (a day count; `+ timedelta(days=n)` becomes
`+ n`), timestamps as `Nat`.  The ORM session is modelled as an explicit
`Db` state; an endpoint returns `Except ApiError Db` where an `error`
result models an `HTTPException` raised before the transaction commits,
leaving the store unchanged.
-/

/-- Model of `ApplicationStatus` from `app/models/application.py`. -/
inductive ApplicationStatus
  | SOURCED
  | SCREENED
  | SUBMITTED
  | INTERVIEWING
  | OFFERED
  | JOINED
  | REJECTED
  | WITHDRAWN
deriving DecidableEq, Repr

/-- The `.value` string of each `ApplicationStatus` member. -/
def ApplicationStatus.value : ApplicationStatus → String
  | .SOURCED => "sourced"
  | .SCREENED => "screened"
  | .SUBMITTED => "submitted"
  | .INTERVIEWING => "interviewing"
  | .OFFERED => "offered"
  | .JOINED => "joined"
  | .REJECTED => "rejected"
  | .WITHDRAWN => "withdrawn"

/-- Model of `SLAStatus` from `app/models/application.py`. -/
inductive SLAStatus
  | ON_TRACK
  | AT_RISK
  | BREACHED
deriving DecidableEq, Repr

/-- Model of `JDStatus` from `app/models/job_description.py`. -/
inductive JDStatus
  | DRAFT
  | OPEN
  | ON_HOLD
  | CLOSED
deriving DecidableEq, Repr

/-- Model of `InterviewStatus` from `app/models/interview.py`. -/
inductive InterviewStatus
  | SCHEDULED
  | COMPLETED
  | CANCELLED
  | RESCHEDULED
  | NO_SHOW
deriving DecidableEq, Repr

/-- Model of `OfferStatus` from `app/models/offer.py`. -/
inductive OfferStatus
  | DRAFT
  | SENT
  | NEGOTIATING
  | ACCEPTED
  | DECLINED
  | CANCELLED
  | EXPIRED
deriving DecidableEq, Repr

/-- Model of `JoiningStatus` from `app/models/joining.py`.  Note: the enumeration has
no `JOINED` member; `joinings.py` nonetheless references
`JoiningStatus.JOINED`, which raises `AttributeError` when evaluated. -/
inductive JoiningStatus
  | CONFIRMED
  | NO_SHOW
  | DELAYED
  | REPLACEMENT_REQUIRED
deriving DecidableEq, Repr

/-- Model of `UserRole` from `app/core/permissions.py`. -/
inductive UserRole
  | ADMIN
  | RECRUITER
  | ACCOUNT_MANAGER
  | BD_SALES
  | FINANCE
  | CLIENT
deriving DecidableEq, Repr

/--
Model of `calculate_sla` from `app/api/v1/endpoints/applications.py`
(lines 41-64).

`jd_sla_days` is the JD's `sla_days` column (`Optional[int]`); the Python
guard `jd.sla_days if jd.sla_days else 7` treats both `None` and `0` as
falsy, hence the `d = 0` branch.  `start_date = None` defaults to today
(`if not start_date`; a Python `date` object is never falsy).
Returns `(sla_start_date, sla_end_date, sla_status)`.
-/
def calculate_sla (jd_sla_days : Option Int) (start_date : Option Int)
    (today : Int) : Int × Int × SLAStatus :=
  let start := start_date.getD today
  let sla_days : Int :=
    match jd_sla_days with
    | some d => if d = 0 then 7 else d
    | none => 7
  let sla_end_date := start + sla_days
  let days_remaining := sla_end_date - today
  let sla_status :=
    if days_remaining < 0 then SLAStatus.BREACHED
    else if days_remaining ≤ 2 then SLAStatus.AT_RISK
    else SLAStatus.ON_TRACK
  (start, sla_end_date, sla_status)

example : calculate_sla (some 7) none 0 = (0, 7, SLAStatus.ON_TRACK) := by decide

example : calculate_sla none (some 0) 5 = (0, 7, SLAStatus.AT_RISK) := by decide

example : calculate_sla (some 3) (some 0) 4 = (0, 3, SLAStatus.BREACHED) := by decide

/--
Claim C2: For every SLA configuration (`sla_days`, defaulting to 7 when the
JD's `sla_days` is unset; the API schema enforces `1 ≤ sla_days ≤ 365`, so
the hypothesis excludes only the unrepresentable value `0`) and every start
date (defaulting to today), the SLA calculator returns
`sla_end_date = start_date + sla_days` exactly, and with
`days_remaining = sla_end_date - today` it returns `BREACHED` iff
`days_remaining < 0`, `AT_RISK` iff `0 ≤ days_remaining ≤ 2`, and
`ON_TRACK` iff `days_remaining ≥ 3`.  In particular `days_remaining = 0`
and `= 2` yield `AT_RISK`, and `= 3` yields `ON_TRACK`.
-/
theorem calculate_sla_correct (jd_sla_days : Option Int)
    (start_date : Option Int) (today : Int) (h : jd_sla_days ≠ some 0) :
    (calculate_sla jd_sla_days start_date today).1 = start_date.getD today ∧
    (calculate_sla jd_sla_days start_date today).2.1 =
      start_date.getD today + jd_sla_days.getD 7 ∧
    ((calculate_sla jd_sla_days start_date today).2.2 = SLAStatus.BREACHED ↔
      (calculate_sla jd_sla_days start_date today).2.1 - today < 0) ∧
    ((calculate_sla jd_sla_days start_date today).2.2 = SLAStatus.AT_RISK ↔
      0 ≤ (calculate_sla jd_sla_days start_date today).2.1 - today ∧
      (calculate_sla jd_sla_days start_date today).2.1 - today ≤ 2) ∧
    ((calculate_sla jd_sla_days start_date today).2.2 = SLAStatus.ON_TRACK ↔
      3 ≤ (calculate_sla jd_sla_days start_date today).2.1 - today) := by
  rcases jd_sla_days with _ | d
  · refine ⟨rfl, rfl, ?_, ?_, ?_⟩ <;>
      · simp only [calculate_sla]
        split_ifs with h1 h2 <;> simp <;> omega
  · have hd : d ≠ 0 := fun hc => h (by rw [hc])
    refine ⟨rfl, ?_, ?_, ?_, ?_⟩
    · simp [calculate_sla, if_neg hd]
    · simp only [calculate_sla, if_neg hd]
      split_ifs with h1 h2 <;> simp <;> omega
    · simp only [calculate_sla, if_neg hd]
      split_ifs with h1 h2 <;> simp <;> omega
    · simp only [calculate_sla, if_neg hd]
      split_ifs with h1 h2 <;> simp <;> omega

/-- Witness for `calculate_sla_correct` at a concrete input
(`sla_days = 5`, start today, today = 0): the SLA window ends five days out
and the status is `ON_TRACK`. -/
theorem calculate_sla_correct_witness :
    (calculate_sla (some 5) none 0).2.1 = 0 + 5 ∧
    (calculate_sla (some 5) none 0).2.2 = SLAStatus.ON_TRACK := by
  have h := calculate_sla_correct (some 5) none 0 (by decide)
  exact ⟨h.2.1, h.2.2.2.2.mpr (by decide)⟩

/-! ## Data model

Rows of the stores touched by the pipeline endpoints, from
`app/models/*.py`.  Only columns that the embedded endpoints read or write
are carried (plus identity and audit columns); dates are `Int` day counts
and datetimes are `Nat` ticks.
-/

/-- Model of `users` row, from `app/models/user.py`. -/
structure User where
  id : Nat
  email : String
  full_name : String
  role : UserRole
  is_active : Bool
  deleted_at : Option Nat
deriving DecidableEq, Repr

/-- Model of `User.is_admin` property from `app/models/user.py`:
`self.role == UserRole.ADMIN`. -/
def User.is_admin (u : User) : Bool :=
  u.role == UserRole.ADMIN

/-- Model of `candidates` row (identity only; the pipeline endpoints only check
existence), from `app/models/candidate.py`. -/
structure Candidate where
  id : Nat
deriving DecidableEq, Repr

/-- Model of `job_descriptions` row, from `app/models/job_description.py`. -/
structure JobDescription where
  id : Nat
  client_id : Nat
  status : JDStatus
  sla_days : Option Int
  assigned_recruiter_id : Option Nat
deriving DecidableEq, Repr

/-- Model of `applications` row, from `app/models/application.py`. -/
structure Application where
  id : Nat
  candidate_id : Nat
  jd_id : Nat
  status : ApplicationStatus
  substatus : Option String
  screening_notes : Option String
  internal_rating : Option Int
  screened_by : Option Nat
  screened_at : Option Nat
  submitted_to_client_date : Option Int
  client_submission_notes : Option String
  sla_start_date : Option Int
  sla_end_date : Option Int
  sla_status : Option SLAStatus
  rejection_reason : Option String
  rejection_stage : Option String
  rejected_by : Option String
  rejected_at : Option Nat
  withdrawal_reason : Option String
  withdrawn_at : Option Nat
  notes : Option String
  created_by : Nat
  deleted_at : Option Nat
deriving DecidableEq, Repr

/-- Model of `application_status_history` row, from `app/models/application.py`. -/
structure ApplicationStatusHistory where
  application_id : Nat
  from_status : Option String
  to_status : String
  changed_by : Nat
  notes : Option String
  changed_at : Nat
deriving DecidableEq, Repr

/-- Model of `interviews` row, from `app/models/interview.py` (columns set by
`create_interview`; `round_name` is `nullable=False`, `interviewer_name`
and `scheduled_date` are nullable). -/
structure Interview where
  application_id : Nat
  round_number : Nat
  round_name : String
  scheduled_date : Option Int
  interviewer_name : Option String
  is_client_interview : Bool
  status : InterviewStatus
  next_round_scheduled : Bool
  additional_notes : Option String
  created_by : Nat
deriving DecidableEq, Repr

/-- Model of `offers` row, from `app/models/offer.py` (the columns the
embedded code consults: the active-offer check reads `application_id` and
`status`; compensation is `ctc_annual`, versioning is `revision_number`,
free text is `notes` — there are **no** `annual_ctc`/`work_location`/
`version`/`remarks` columns, which is what makes `create_offer` crash). -/
structure Offer where
  offer_number : String
  application_id : Nat
  designation : String
  ctc_annual : Int
  joining_date_proposed : Option Int
  offer_valid_till : Option Int
  status : OfferStatus
  revision_number : Nat
  notes : Option String
  created_by : Nat
deriving DecidableEq, Repr

/-- Model of `joinings` row, from `app/models/joining.py` (the columns the
embedded code consults: the existing-joining check reads
`application_id`; free text is `notes` — there are no
`documents_submitted`/`bgv_status`/`remarks` columns). -/
structure Joining where
  application_id : Nat
  offer_id : Nat
  expected_joining_date : Option Int
  actual_joining_date : Option Int
  employee_id : Option String
  status : JoiningStatus
  notes : Option String
  created_by : Nat
deriving DecidableEq, Repr

/-- The persistence store reachable from the embedded endpoints: one list
per table, standing for the SQLAlchemy session plus database. -/
structure Db where
  users : List User
  candidates : List Candidate
  jds : List JobDescription
  applications : List Application
  history : List ApplicationStatusHistory
  interviews : List Interview
  offers : List Offer
  joinings : List Joining
deriving DecidableEq, Repr

/-- Errors surfaced by the embedded endpoints: `notFound` models
`HTTPException(404)`, `badRequest detail` models `HTTPException(400, detail)`,
and `internalError` models an uncaught Python exception (HTTP 500); in every
case the transaction never commits. -/
inductive ApiError
  | notFound
  | badRequest (detail : String)
  | internalError
deriving DecidableEq, Repr

/-- Model of `db.query(Application).filter(Application.id == application_id).first()`
— the lookup shared by every application endpoint.  Note it filters on `id`
only: `deleted_at` is not consulted. -/
def findApplication (db : Db) (application_id : Nat) : Option Application :=
  db.applications.find? (fun a => a.id == application_id)

/-- Replace the row found by `findApplication` — the ORM mutating the
fetched `Application` object in place before `db.commit()`. -/
def storeApplication (db : Db) (application_id : Nat) (app : Application) :
    Db :=
  { db with applications :=
      db.applications.map (fun a => if a.id == application_id then app else a) }

/-- Model of `create_status_history` from
`app/api/v1/endpoints/applications.py` (lines 67-83): builds the audit row
that the caller's transaction appends (`db.add(history)`). -/
def create_status_history (application_id : Nat) (from_status : Option String)
    (to_status : String) (changed_by : Nat) (notes : Option String)
    (changed_at : Nat) : ApplicationStatusHistory :=
  { application_id := application_id
    from_status := from_status
    to_status := to_status
    changed_by := changed_by
    notes := notes
    changed_at := changed_at }

/-! ## Request schemas (`app/schemas/application.py` etc.)

For `PATCH`-style payloads pydantic's `exclude_unset` distinguishes an
absent field from one explicitly set; an absent field is the outer `none`.
-/

/-- Model of `ApplicationCreate` schema. -/
structure ApplicationCreate where
  candidate_id : Nat
  jd_id : Nat
  screening_notes : Option String
  internal_rating : Option Int
  status : ApplicationStatus
deriving DecidableEq, Repr

/-- Model of `ApplicationUpdate` schema: exactly the four updatable fields;
the outer `Option` is "was the field sent" (`exclude_unset`). -/
structure ApplicationUpdate where
  screening_notes : Option (Option String)
  internal_rating : Option (Option Int)
  substatus : Option (Option String)
  notes : Option (Option String)
deriving DecidableEq, Repr

/-- Model of `ApplicationStatusUpdate` schema. -/
structure ApplicationStatusUpdate where
  status : ApplicationStatus
  notes : Option String
deriving DecidableEq, Repr

/-- Model of `ApplicationReject` schema (`rejection_reason` has `min_length=1`). -/
structure ApplicationReject where
  rejection_reason : String
  rejection_stage : Option String
deriving DecidableEq, Repr

/-- Model of `InterviewCreate` schema (fields `create_interview` copies;
`round_name` is required with `min_length=1`, `scheduled_date` and
`interviewer_name` are optional). -/
structure InterviewCreate where
  application_id : Nat
  round_number : Nat
  round_name : String
  scheduled_date : Option Int
  interviewer_name : Option String
  is_client_interview : Bool
  additional_notes : Option String
deriving DecidableEq, Repr

/-- Model of `OfferCreate` schema from `app/schemas/offer.py` (floats as
`Int`, the `benefits` JSON dict carried opaquely as a string).  These field
names (`annual_ctc`, `base_salary`, `variable_pay`, `bonus`, `benefits`,
`joining_date`, `work_location`, `remarks`) are what `create_offer` feeds
to the `Offer(...)` constructor — and they are not `Offer` columns. -/
structure OfferCreate where
  application_id : Nat
  designation : String
  annual_ctc : Int
  base_salary : Option Int
  variable_pay : Option Int
  bonus : Option Int
  benefits : Option String
  joining_date : Option Int
  offer_valid_till : Option Int
  work_location : Option String
  remarks : Option String
deriving DecidableEq, Repr

/-- Model of `JoiningCreate` schema from `app/schemas/joining.py`
(`expected_joining_date` is required; JSON dicts carried opaquely).  Note
there is **no** `replacement_required` field — it is commented out of
`JoiningBase` — yet `create_joining` reads it, which is what makes that
endpoint crash. -/
structure JoiningCreate where
  application_id : Nat
  expected_joining_date : Int
  actual_joining_date : Option Int
  employee_id : Option String
  status : JoiningStatus
  documents_submitted : Option String
  bgv_status : Option String
  bgv_completion_date : Option Int
  onboarding_status : Option String
  replacement_reason : Option String
  remarks : Option String
deriving DecidableEq, Repr

/-! ## Application pipeline endpoints
(`app/api/v1/endpoints/applications.py`) -/

/--
Model of `create_application` (lines 90-169).  `current_user_id` is the
authenticated caller, `today`/`now` the clock, `new_id` the id the database
assigns on `flush`.  The duplicate check (lines 124-127) filters on
`candidate_id` and `jd_id` only — it does not filter on `deleted_at`.
-/
def create_application (db : Db) (app_data : ApplicationCreate)
    (current_user_id : Nat) (today : Int) (now : Nat) (new_id : Nat) :
    Except ApiError Db :=
  match db.candidates.find? (fun c => c.id == app_data.candidate_id) with
  | none => .error .notFound
  | some _ =>
  match db.jds.find? (fun j => j.id == app_data.jd_id) with
  | none => .error .notFound
  | some jd =>
  if jd.status ≠ JDStatus.OPEN then
    .error (.badRequest "Cannot apply to JD with this status")
  else
  match db.applications.find?
      (fun a => a.candidate_id == app_data.candidate_id &&
                a.jd_id == app_data.jd_id) with
  | some _ =>
    .error (.badRequest "Application already exists for this candidate and JD")
  | none =>
  let sla := calculate_sla jd.sla_days none today
  let new_application : Application :=
    { id := new_id
      candidate_id := app_data.candidate_id
      jd_id := app_data.jd_id
      status := app_data.status
      substatus := none
      screening_notes := app_data.screening_notes
      internal_rating := app_data.internal_rating
      screened_by :=
        if app_data.status = ApplicationStatus.SCREENED
        then some current_user_id else none
      screened_at :=
        if app_data.status = ApplicationStatus.SCREENED then some now else none
      submitted_to_client_date := none
      client_submission_notes := none
      sla_start_date := some sla.1
      sla_end_date := some sla.2.1
      sla_status := some sla.2.2
      rejection_reason := none
      rejection_stage := none
      rejected_by := none
      rejected_at := none
      withdrawal_reason := none
      withdrawn_at := none
      notes := none
      created_by := current_user_id
      deleted_at := none }
  .ok { db with
          applications := db.applications ++ [new_application]
          history := db.history ++
            [create_status_history new_id none app_data.status.value
              current_user_id (some "Application created") now] }

/-- Apply `ApplicationUpdate` fields with `exclude_unset` semantics
(`update_application` lines 326-328: `setattr` per sent field). -/
def applyApplicationUpdate (application : Application)
    (app_data : ApplicationUpdate) : Application :=
  let a1 := match app_data.screening_notes with
    | none => application
    | some v => { application with screening_notes := v }
  let a2 := match app_data.internal_rating with
    | none => a1
    | some v => { a1 with internal_rating := v }
  let a3 := match app_data.substatus with
    | none => a2
    | some v => { a2 with substatus := v }
  match app_data.notes with
  | none => a3
  | some v => { a3 with notes := v }

/-- Model of `update_application` (lines 305-333): the generic `PUT`; writes only the
sent `ApplicationUpdate` fields, appends no history. -/
def update_application (db : Db) (application_id : Nat)
    (app_data : ApplicationUpdate) : Except ApiError Db :=
  match findApplication db application_id with
  | none => .error .notFound
  | some application =>
    .ok (storeApplication db application_id
          (applyApplicationUpdate application app_data))

/-- Model of `update_application_status` (lines 336-380): sets the status, stamps the
screening attribution on first entry into `SCREENED`
(`if status_update.status == ApplicationStatus.SCREENED and not
application.screened_at`), and appends one history row. -/
def update_application_status (db : Db) (application_id : Nat)
    (status_update : ApplicationStatusUpdate) (current_user_id : Nat)
    (now : Nat) : Except ApiError Db :=
  match findApplication db application_id with
  | none => .error .notFound
  | some application =>
    let old_status := application.status.value
    let new_status := status_update.status.value
    let app1 := { application with status := status_update.status }
    let app2 :=
      if status_update.status = ApplicationStatus.SCREENED ∧
         application.screened_at = none then
        { app1 with screened_by := some current_user_id,
                    screened_at := some now }
      else app1
    .ok { storeApplication db application_id app2 with
            history := db.history ++
              [create_status_history application_id (some old_status)
                new_status current_user_id status_update.notes now] }

/-- Model of `submit_to_client` (lines 383-436): rejects an already-submitted or
still-`SOURCED` application, otherwise stamps the submission and appends one
history row. -/
def submit_to_client (db : Db) (application_id : Nat)
    (submission_notes : Option String) (current_user_id : Nat) (today : Int)
    (now : Nat) : Except ApiError Db :=
  match findApplication db application_id with
  | none => .error .notFound
  | some application =>
    if application.submitted_to_client_date ≠ none then
      .error (.badRequest "Application already submitted to client")
    else if application.status = ApplicationStatus.SOURCED then
      .error (.badRequest "Application must be screened before submission")
    else
      let old_status := application.status.value
      let app1 := { application with
        submitted_to_client_date := some today
        client_submission_notes := submission_notes
        status := ApplicationStatus.SUBMITTED }
      .ok { storeApplication db application_id app1 with
              history := db.history ++
                [create_status_history application_id (some old_status)
                  ApplicationStatus.SUBMITTED.value current_user_id
                  (some ("Submitted to client. " ++
                    (submission_notes.getD ""))) now] }

/-- Model of `reject_application` (lines 439-481).  The Python
`rejection.rejection_stage or old_status` treats `None` and `""` as falsy. -/
def reject_application (db : Db) (application_id : Nat)
    (rejection : ApplicationReject) (current_user_id : Nat) (now : Nat) :
    Except ApiError Db :=
  match findApplication db application_id with
  | none => .error .notFound
  | some application =>
    let old_status := application.status.value
    let stage := match rejection.rejection_stage with
      | some s => if s = "" then old_status else s
      | none => old_status
    let app1 := { application with
      status := ApplicationStatus.REJECTED
      rejection_reason := some rejection.rejection_reason
      rejection_stage := some stage
      rejected_by := some ("User " ++ toString current_user_id)
      rejected_at := some now }
    .ok { storeApplication db application_id app1 with
            history := db.history ++
              [create_status_history application_id (some old_status)
                ApplicationStatus.REJECTED.value current_user_id
                (some ("Rejected: " ++ rejection.rejection_reason)) now] }

/-! ## Cross-entity creators that touch `Application.status` -/

/-- Model of `create_interview` from `app/api/v1/endpoints/interviews.py`
(lines 37-101): checks the application's status is `SCREENED`, `SUBMITTED`
or `INTERVIEWING`, inserts the interview, and promotes the application to
`INTERVIEWING` — with **no** history row. -/
def create_interview (db : Db) (interview_data : InterviewCreate)
    (current_user_id : Nat) : Except ApiError Db :=
  match findApplication db interview_data.application_id with
  | none => .error .notFound
  | some application =>
    if application.status ≠ ApplicationStatus.SCREENED ∧
       application.status ≠ ApplicationStatus.SUBMITTED ∧
       application.status ≠ ApplicationStatus.INTERVIEWING then
      .error (.badRequest "Cannot schedule interview for application status")
    else
      let new_interview : Interview :=
        { application_id := interview_data.application_id
          round_number := interview_data.round_number
          round_name := interview_data.round_name
          scheduled_date := interview_data.scheduled_date
          interviewer_name := interview_data.interviewer_name
          is_client_interview := interview_data.is_client_interview
          status := InterviewStatus.SCHEDULED
          next_round_scheduled := false
          additional_notes := interview_data.additional_notes
          created_by := current_user_id }
      let app1 :=
        if application.status ≠ ApplicationStatus.INTERVIEWING then
          { application with status := ApplicationStatus.INTERVIEWING }
        else application
      .ok { storeApplication db interview_data.application_id app1 with
              interviews := db.interviews ++ [new_interview] }

/-- Model of `%04d` zero-padding used by `generate_offer_number`. -/
def padNum4 (n : Nat) : String :=
  let s := toString n
  String.mk (List.replicate (4 - s.length) '0') ++ s

/-- Model of `generate_offer_number` from `app/api/v1/endpoints/offers.py`
(lines 38-41): `"OFR" + today.strftime("%Y%m") + f"{count + 1:04d}"`;
`today_yyyymm` stands for the formatted current month. -/
def generate_offer_number (db : Db) (today_yyyymm : String) : String :=
  "OFR" ++ today_yyyymm ++ padNum4 (db.offers.length + 1)

/-- Model of `create_offer` from `app/api/v1/endpoints/offers.py`
(lines 48-119): requires status `INTERVIEWING` and no active
(`DRAFT`/`SENT`/`NEGOTIATING`) offer.  After those checks the source builds
`Offer(annual_ctc=…, base_salary=…, variable_pay=…, bonus=…, benefits=…,
joining_date=…, work_location=…, version=1, remarks=…)` — none of which
are `Offer` columns (the model has `ctc_annual`, `fixed_component`,
`variable_component`, `other_benefits`, `joining_date_proposed`,
`revision_number`, `notes`), so the declarative constructor raises
`TypeError` on **every** call that passes validation, before `db.add` and
before the `application.status = OFFERED` promotion at line 114: HTTP 500,
transaction rolled back, store unchanged.  The only preceding statement,
`generate_offer_number(db)`, is a read-only count query. -/
def create_offer (db : Db) (offer_data : OfferCreate) (current_user_id : Nat)
    (today_yyyymm : String) : Except ApiError Db :=
  match findApplication db offer_data.application_id with
  | none => .error .notFound
  | some application =>
    if application.status ≠ ApplicationStatus.INTERVIEWING then
      .error (.badRequest "Cannot create offer for application status")
    else
    match db.offers.find? (fun o =>
        o.application_id == offer_data.application_id &&
        (o.status == OfferStatus.DRAFT || o.status == OfferStatus.SENT ||
         o.status == OfferStatus.NEGOTIATING)) with
    | some _ =>
      .error (.badRequest "An active offer already exists for this application")
    | none =>
      let _offer_number := generate_offer_number db today_yyyymm
      .error .internalError

/-- Model of `create_joining` from `app/api/v1/endpoints/joinings.py`
(lines 42-108): requires status `OFFERED` and no existing joining.  After
those checks the source evaluates the `Joining(...)` keyword arguments,
among them `replacement_required=joining_data.replacement_required`
(line 93) — a field commented out of `JoiningBase`, so this raises
`AttributeError` on **every** call that passes validation, regardless of
`actual_joining_date` (and `documents_submitted`/`bgv_status`/
`bgv_completion_date`/`replacement_reason`/`remarks` are not `Joining`
columns either): HTTP 500, transaction rolled back, nothing inserted, the
line-102/103 promotion to `JOINED` (itself referencing the nonexistent
`JoiningStatus.JOINED`) is never reached. -/
def create_joining (db : Db) (joining_data : JoiningCreate)
    (current_user_id : Nat) : Except ApiError Db :=
  match findApplication db joining_data.application_id with
  | none => .error .notFound
  | some application =>
    if application.status ≠ ApplicationStatus.OFFERED then
      .error (.badRequest "Cannot create joining for application status")
    else
    match db.joinings.find?
        (fun j => j.application_id == joining_data.application_id) with
    | some _ =>
      .error (.badRequest "Joining record already exists for this application")
    | none =>
      .error .internalError

/-! ## Helper lemmas about the store -/

/-- A row found by id satisfies the id predicate. -/
theorem findApplication_id (db : Db) (i : Nat) (app : Application)
    (h : findApplication db i = some app) : app.id = i := by
  unfold findApplication at h
  have := List.find?_some h
  simpa using this

/-- Replacing the matching row makes the lookup return the replacement,
provided some row matched before. -/
theorem find?_map_ite (l : List Application) (i : Nat) (b : Application)
    (hid : b.id = i)
    (hs : (l.find? (fun a => a.id == i)).isSome = true) :
    (l.map (fun a => if a.id == i then b else a)).find?
      (fun a => a.id == i) = some b := by
  induction l with
  | nil => simp [List.find?] at hs
  | cons a l ih =>
    by_cases hc : (a.id == i) = true
    · simp only [List.map_cons, if_pos hc]
      exact List.find?_cons_of_pos _ (by simp [hid])
    · simp only [List.map_cons, if_neg hc]
      rw [List.find?_cons_of_neg _ (by simp_all)]
      rw [List.find?_cons_of_neg _ (by simp_all)] at hs
      exact ih hs

/-- Model of `findApplication` after `storeApplication` (the history field of the
result may have been further overridden; lookups only read
`applications`). -/
theorem findApplication_store (db : Db) (i : Nat) (app b : Application)
    (hid : b.id = i) (h : findApplication db i = some app)
    (hist : List ApplicationStatusHistory) :
    findApplication { storeApplication db i b with history := hist } i
      = some b := by
  have hs : (db.applications.find? (fun a => a.id == i)).isSome = true := by
    unfold findApplication at h
    rw [h]
    rfl
  show (db.applications.map fun a => if a.id == i then b else a).find?
      (fun a => a.id == i) = some b
  exact find?_map_ite db.applications i b hid hs


/-! ## Shared concrete fixtures (used by witnesses and counterexamples) -/

/-- A sample JD (id 1, `OPEN`, 7-day SLA). -/
def sampleJD : JobDescription :=
  { id := 1, client_id := 1, status := JDStatus.OPEN, sla_days := some 7,
    assigned_recruiter_id := none }

/-- A sample application (id 1) with adjustable status, screening stamp,
submission date and soft-delete stamp. -/
def sampleApp (st : ApplicationStatus) (scr_at : Option Nat)
    (sub_date : Option Int) (del : Option Nat) : Application :=
  { id := 1, candidate_id := 1, jd_id := 1, status := st, substatus := none,
    screening_notes := none, internal_rating := none,
    screened_by := scr_at.map (fun _ => 7), screened_at := scr_at,
    submitted_to_client_date := sub_date, client_submission_notes := none,
    sla_start_date := some 0, sla_end_date := some 7,
    sla_status := some SLAStatus.ON_TRACK, rejection_reason := none,
    rejection_stage := none, rejected_by := none, rejected_at := none,
    withdrawal_reason := none, withdrawn_at := none, notes := none,
    created_by := 7, deleted_at := del }

/-- A one-application store around `sampleJD`. -/
def sampleDb (apps : List Application)
    (hist : List ApplicationStatusHistory) : Db :=
  { users := [], candidates := [{ id := 1 }], jds := [sampleJD],
    applications := apps, history := hist, interviews := [], offers := [],
    joinings := [] }

/--
Claim C6: For every Application, `submit_to_client` fails with a 400
`ValidationError` (leaving the store unchanged — the exception is raised
before any mutation is committed) whenever `submitted_to_client_date` is
already set or the current status is `SOURCED`; otherwise it sets the
submission date and notes, moves the status to `SUBMITTED`, and appends
exactly one history row.
-/
theorem submit_to_client_correct (db : Db) (i : Nat) (sub : Option String)
    (uid : Nat) (today : Int) (now : Nat) (app : Application)
    (h : findApplication db i = some app) :
    (app.submitted_to_client_date ≠ none →
      submit_to_client db i sub uid today now =
        .error (.badRequest "Application already submitted to client")) ∧
    (app.submitted_to_client_date = none →
      app.status = ApplicationStatus.SOURCED →
      submit_to_client db i sub uid today now =
        .error (.badRequest "Application must be screened before submission")) ∧
    (app.submitted_to_client_date = none →
      app.status ≠ ApplicationStatus.SOURCED →
      ∃ db', submit_to_client db i sub uid today now = .ok db' ∧
        findApplication db' i = some { app with
          submitted_to_client_date := some today
          client_submission_notes := sub
          status := ApplicationStatus.SUBMITTED } ∧
        db'.history = db.history ++
          [create_status_history i (some app.status.value)
            ApplicationStatus.SUBMITTED.value uid
            (some ("Submitted to client. " ++ sub.getD "")) now]) := by
  refine ⟨?_, ?_, ?_⟩
  · intro hsub
    unfold submit_to_client
    rw [h]
    dsimp only
    rw [if_pos hsub]
  · intro hsub hst
    unfold submit_to_client
    rw [h]
    dsimp only
    rw [if_neg (by simp [hsub]), if_pos hst]
  · intro hsub hst
    have hok : submit_to_client db i sub uid today now =
        .ok { storeApplication db i { app with
                submitted_to_client_date := some today
                client_submission_notes := sub
                status := ApplicationStatus.SUBMITTED } with
              history := db.history ++
                [create_status_history i (some app.status.value)
                  ApplicationStatus.SUBMITTED.value uid
                  (some ("Submitted to client. " ++ sub.getD "")) now] } := by
      unfold submit_to_client
      rw [h]
      dsimp only
      rw [if_neg (by simp [hsub]), if_neg hst]
    exact ⟨_, hok,
      findApplication_store db i app
        { app with submitted_to_client_date := some today
                   client_submission_notes := sub
                   status := ApplicationStatus.SUBMITTED }
        (findApplication_id db i app h) h _,
      rfl⟩

/-- Witness for `submit_to_client_correct`: submitting a screened,
not-yet-submitted application succeeds and appends one history row. -/
theorem submit_to_client_correct_witness :
    ∃ db', submit_to_client
        (sampleDb [sampleApp ApplicationStatus.SCREENED (some 10) none none] [])
        1 (some "cv attached") 7 3 11 = .ok db' ∧
      db'.history.length = 1 := by
  obtain ⟨db', hok, -, hh⟩ :=
    (submit_to_client_correct
      (sampleDb [sampleApp ApplicationStatus.SCREENED (some 10) none none] [])
      1 (some "cv attached") 7 3 11 _ rfl).2.2 rfl (by decide)
  exact ⟨db', hok, by rw [hh]; rfl⟩

/--
Claim C7: For every Application whose `screened_at` is already set, a
transition into `SCREENED` through `update_application_status` leaves
`screened_by` and `screened_at` unchanged (the result row is
`{ app with status := su.status }`, all other fields untouched) while still
appending one history row for the transition; when `screened_at` is unset,
entering `SCREENED` stamps `screened_by := actor` and
`screened_at := now`.
-/
theorem screened_attribution_idempotent (db : Db) (i uid now : Nat)
    (su : ApplicationStatusUpdate) (app : Application)
    (h : findApplication db i = some app)
    (hscr : su.status = ApplicationStatus.SCREENED) :
    (app.screened_at ≠ none →
      ∃ db', update_application_status db i su uid now = .ok db' ∧
        findApplication db' i = some { app with status := su.status } ∧
        db'.history = db.history ++
          [create_status_history i (some app.status.value) su.status.value
            uid su.notes now]) ∧
    (app.screened_at = none →
      ∃ db', update_application_status db i su uid now = .ok db' ∧
        findApplication db' i = some { app with
          status := su.status, screened_by := some uid,
          screened_at := some now } ∧
        db'.history = db.history ++
          [create_status_history i (some app.status.value) su.status.value
            uid su.notes now]) := by
  constructor
  · intro hsa
    have hok : update_application_status db i su uid now =
        .ok { storeApplication db i { app with status := su.status } with
              history := db.history ++
                [create_status_history i (some app.status.value)
                  su.status.value uid su.notes now] } := by
      unfold update_application_status
      rw [h]
      dsimp only
      rw [if_neg (by simp [hsa])]
    exact ⟨_, hok,
      findApplication_store db i app { app with status := su.status }
        (findApplication_id db i app h) h _,
      rfl⟩
  · intro hsa
    have hok : update_application_status db i su uid now =
        .ok { storeApplication db i { app with
                status := su.status, screened_by := some uid,
                screened_at := some now } with
              history := db.history ++
                [create_status_history i (some app.status.value)
                  su.status.value uid su.notes now] } := by
      unfold update_application_status
      rw [h]
      dsimp only
      rw [if_pos ⟨hscr, hsa⟩]
    exact ⟨_, hok,
      findApplication_store db i app
        { app with
          status := su.status, screened_by := some uid,
          screened_at := some now }
        (findApplication_id db i app h) h _,
      rfl⟩

/-- Witness for `screened_attribution_idempotent`: re-submitting `SCREENED`
by actor 8 on an application screened by user 7 at time 10 keeps
`screened_by = 7`, `screened_at = 10`, and still appends a history row. -/
theorem screened_attribution_idempotent_witness :
    ∃ db' app',
      update_application_status
          (sampleDb [sampleApp ApplicationStatus.SCREENED (some 10) none none]
            [])
          1 { status := ApplicationStatus.SCREENED, notes := none } 8 20 =
        .ok db' ∧
      findApplication db' 1 = some app' ∧
      app'.screened_by = some 7 ∧ app'.screened_at = some 10 ∧
      db'.history.length = 1 := by
  obtain ⟨db', hok, hfind, hh⟩ :=
    (screened_attribution_idempotent
      (sampleDb [sampleApp ApplicationStatus.SCREENED (some 10) none none] [])
      1 8 20 { status := ApplicationStatus.SCREENED, notes := none }
      (sampleApp ApplicationStatus.SCREENED (some 10) none none)
      rfl rfl).1 (by decide)
  exact ⟨db', _, hok, hfind, rfl, rfl, by rw [hh]; rfl⟩

/-- Model of `findApplication` after a bare `storeApplication`. -/
theorem findApplication_store_plain (db : Db) (i : Nat) (app b : Application)
    (hid : b.id = i) (h : findApplication db i = some app) :
    findApplication (storeApplication db i b) i = some b := by
  have hs : (db.applications.find? (fun a => a.id == i)).isSome = true := by
    unfold findApplication at h
    rw [h]
    rfl
  show (db.applications.map fun a => if a.id == i then b else a).find?
      (fun a => a.id == i) = some b
  exact find?_map_ite db.applications i b hid hs

/--
Claim C10: For every Application and every `update_application` payload, only
`screening_notes`, `internal_rating`, `substatus` and `notes` may change:
the resulting row agrees with the original on every other column — in
particular `status`, the SLA window, the screening stamp, the submission
and the rejection columns — and no history row is appended.
-/
theorem update_application_frame (db : Db) (i : Nat) (u : ApplicationUpdate)
    (app : Application) (h : findApplication db i = some app) :
    ∃ db', update_application db i u = .ok db' ∧
      db'.history = db.history ∧
      ∃ app', findApplication db' i = some app' ∧
        app'.id = app.id ∧ app'.candidate_id = app.candidate_id ∧
        app'.jd_id = app.jd_id ∧ app'.status = app.status ∧
        app'.screened_by = app.screened_by ∧
        app'.screened_at = app.screened_at ∧
        app'.submitted_to_client_date = app.submitted_to_client_date ∧
        app'.client_submission_notes = app.client_submission_notes ∧
        app'.sla_start_date = app.sla_start_date ∧
        app'.sla_end_date = app.sla_end_date ∧
        app'.sla_status = app.sla_status ∧
        app'.rejection_reason = app.rejection_reason ∧
        app'.rejection_stage = app.rejection_stage ∧
        app'.rejected_by = app.rejected_by ∧
        app'.rejected_at = app.rejected_at ∧
        app'.withdrawal_reason = app.withdrawal_reason ∧
        app'.withdrawn_at = app.withdrawn_at ∧
        app'.created_by = app.created_by ∧
        app'.deleted_at = app.deleted_at := by
  have hok : update_application db i u =
      .ok (storeApplication db i (applyApplicationUpdate app u)) := by
    unfold update_application
    rw [h]
  have hid : (applyApplicationUpdate app u).id = app.id := by
    obtain ⟨sn, ir, ss, nt⟩ := u
    cases sn <;> cases ir <;> cases ss <;> cases nt <;>
      simp [applyApplicationUpdate]
  refine ⟨_, hok, rfl, applyApplicationUpdate app u,
    findApplication_store_plain db i app _
      (hid.trans (findApplication_id db i app h)) h, ?_⟩
  obtain ⟨sn, ir, ss, nt⟩ := u
  cases sn <;> cases ir <;> cases ss <;> cases nt <;>
    simp [applyApplicationUpdate]

/-- Witness for `update_application_frame`: sending `screening_notes` and
`substatus` leaves the status `SOURCED` and appends no history. -/
theorem update_application_frame_witness :
    ∃ db' app', update_application
        (sampleDb [sampleApp ApplicationStatus.SOURCED none none none] []) 1
        { screening_notes := some (some "good fit"), internal_rating := none,
          substatus := some (some "on hold"), notes := none } = .ok db' ∧
      findApplication db' 1 = some app' ∧
      app'.status = ApplicationStatus.SOURCED ∧ db'.history = [] := by
  obtain ⟨db', hok, hh, app', hfind, hfr⟩ :=
    update_application_frame
      (sampleDb [sampleApp ApplicationStatus.SOURCED none none none] []) 1
      { screening_notes := some (some "good fit"), internal_rating := none,
        substatus := some (some "on hold"), notes := none }
      (sampleApp ApplicationStatus.SOURCED none none none) rfl
  exact ⟨db', app', hok, hfind, by rw [hfr.2.2.2.1]; rfl, by rw [hh]; rfl⟩

/--
Claim C9: For every `(candidate_id, jd_id)` pair, `create_application` fails
with a 400 `ValidationError` whenever **any** prior Application row for
that exact pair exists: the duplicate query (lines 124-127) filters only on
`candidate_id` and `jd_id`, so the hypothesis places no constraint on the
prior row's `deleted_at` — a soft-deleted Application still blocks
re-creation.
-/
theorem create_application_duplicate (db : Db) (ac : ApplicationCreate)
    (uid : Nat) (today : Int) (now : Nat) (new_id : Nat)
    (cand : Candidate) (jd : JobDescription) (prior : Application)
    (hc : db.candidates.find? (fun c => c.id == ac.candidate_id) = some cand)
    (hjd : db.jds.find? (fun j => j.id == ac.jd_id) = some jd)
    (hopen : jd.status = JDStatus.OPEN)
    (hdup : db.applications.find?
        (fun a => a.candidate_id == ac.candidate_id &&
                  a.jd_id == ac.jd_id) = some prior) :
    create_application db ac uid today now new_id =
      .error (.badRequest
        "Application already exists for this candidate and JD") := by
  unfold create_application
  rw [hc]
  dsimp only
  rw [hjd]
  dsimp only
  rw [if_neg (by simp [hopen]), hdup]

/-- Witness for `create_application_duplicate`: the prior row is
**soft-deleted** (`deleted_at = some 5`), and re-creating the pair still
fails with the duplicate error. -/
theorem create_application_duplicate_witness :
    (sampleApp ApplicationStatus.REJECTED none none (some 5)).deleted_at =
      some 5 ∧
    create_application
        (sampleDb [sampleApp ApplicationStatus.REJECTED none none (some 5)]
          [])
        { candidate_id := 1, jd_id := 1, screening_notes := none,
          internal_rating := none, status := ApplicationStatus.SOURCED }
        7 0 0 2 =
      .error (.badRequest
        "Application already exists for this candidate and JD") :=
  ⟨rfl, create_application_duplicate _ _ 7 0 0 2
    { id := 1 } sampleJD
    (sampleApp ApplicationStatus.REJECTED none none (some 5))
    rfl rfl rfl rfl⟩

/--
Claim C3, amended: The mutating pipeline endpoints look an Application up by
`id` only (`findApplication` consults no other column), so a soft-deleted
Application (`deleted_at` set) is found and mutated exactly like a live
one: status update, rejection and generic update always succeed on it, and
submission succeeds under its usual preconditions.  Soft deletion does
**not** prevent mutation.
-/
theorem soft_deleted_still_mutable (db : Db) (i uid now t : Nat)
    (su : ApplicationStatusUpdate) (rej : ApplicationReject)
    (u : ApplicationUpdate) (sub : Option String) (today : Int)
    (app : Application) (h : findApplication db i = some app)
    (hdel : app.deleted_at = some t) :
    (∃ db' app', update_application_status db i su uid now = .ok db' ∧
      findApplication db' i = some app' ∧ app'.status = su.status ∧
      app'.deleted_at = some t) ∧
    (∃ db' app', reject_application db i rej uid now = .ok db' ∧
      findApplication db' i = some app' ∧
      app'.status = ApplicationStatus.REJECTED) ∧
    (∃ db', update_application db i u = .ok db') ∧
    (app.submitted_to_client_date = none →
      app.status ≠ ApplicationStatus.SOURCED →
      ∃ db' app', submit_to_client db i sub uid today now = .ok db' ∧
        findApplication db' i = some app' ∧
        app'.status = ApplicationStatus.SUBMITTED) := by
  refine ⟨?_, ?_, ?_, ?_⟩
  · by_cases hc : su.status = ApplicationStatus.SCREENED ∧
        app.screened_at = none
    · have hok : update_application_status db i su uid now =
          .ok { storeApplication db i { app with
                  status := su.status, screened_by := some uid,
                  screened_at := some now } with
                history := db.history ++
                  [create_status_history i (some app.status.value)
                    su.status.value uid su.notes now] } := by
        unfold update_application_status
        rw [h]
        dsimp only
        rw [if_pos hc]
      exact ⟨_, _, hok,
        findApplication_store db i app
          { app with
            status := su.status, screened_by := some uid,
            screened_at := some now }
          (findApplication_id db i app h) h _, rfl, hdel⟩
    · have hok : update_application_status db i su uid now =
          .ok { storeApplication db i { app with status := su.status } with
                history := db.history ++
                  [create_status_history i (some app.status.value)
                    su.status.value uid su.notes now] } := by
        unfold update_application_status
        rw [h]
        dsimp only
        rw [if_neg hc]
      exact ⟨_, _, hok,
        findApplication_store db i app { app with status := su.status }
          (findApplication_id db i app h) h _, rfl, hdel⟩
  · have hok : reject_application db i rej uid now =
        .ok { storeApplication db i { app with
                status := ApplicationStatus.REJECTED,
                rejection_reason := some rej.rejection_reason,
                rejection_stage := some (match rej.rejection_stage with
                  | some s => if s = "" then app.status.value else s
                  | none => app.status.value),
                rejected_by := some ("User " ++ toString uid),
                rejected_at := some now } with
              history := db.history ++
                [create_status_history i (some app.status.value)
                  ApplicationStatus.REJECTED.value uid
                  (some ("Rejected: " ++ rej.rejection_reason)) now] } := by
      unfold reject_application
      rw [h]
    exact ⟨_, _, hok,
      findApplication_store db i app
        { app with
          status := ApplicationStatus.REJECTED,
          rejection_reason := some rej.rejection_reason,
          rejection_stage := some (match rej.rejection_stage with
            | some s => if s = "" then app.status.value else s
            | none => app.status.value),
          rejected_by := some ("User " ++ toString uid),
          rejected_at := some now }
        (findApplication_id db i app h) h _, rfl⟩
  · exact ⟨storeApplication db i (applyApplicationUpdate app u), by
      unfold update_application
      rw [h]⟩
  · intro hsub hst
    have hok : submit_to_client db i sub uid today now =
        .ok { storeApplication db i { app with
                submitted_to_client_date := some today,
                client_submission_notes := sub,
                status := ApplicationStatus.SUBMITTED } with
              history := db.history ++
                [create_status_history i (some app.status.value)
                  ApplicationStatus.SUBMITTED.value uid
                  (some ("Submitted to client. " ++ sub.getD "")) now] } := by
      unfold submit_to_client
      rw [h]
      dsimp only
      rw [if_neg (by simp [hsub]), if_neg hst]
    exact ⟨_, _, hok,
      findApplication_store db i app
        { app with
          submitted_to_client_date := some today,
          client_submission_notes := sub,
          status := ApplicationStatus.SUBMITTED }
        (findApplication_id db i app h) h _, rfl⟩

/-- Witness for `soft_deleted_still_mutable`: a status update on an
Application with `deleted_at = some 5` succeeds and changes the status. -/
theorem soft_deleted_still_mutable_witness :
    ∃ db' app', update_application_status
        (sampleDb [sampleApp ApplicationStatus.SOURCED none none (some 5)]
          []) 1
        { status := ApplicationStatus.SCREENED, notes := none } 9 20 =
      .ok db' ∧
      findApplication db' 1 = some app' ∧
      app'.status = ApplicationStatus.SCREENED ∧
      app'.deleted_at = some 5 :=
  (soft_deleted_still_mutable
    (sampleDb [sampleApp ApplicationStatus.SOURCED none none (some 5)] [])
    1 9 20 5 { status := ApplicationStatus.SCREENED, notes := none }
    { rejection_reason := "dup", rejection_stage := none }
    { screening_notes := none, internal_rating := none, substatus := none,
      notes := none }
    none 0 (sampleApp ApplicationStatus.SOURCED none none (some 5))
    rfl rfl).1

/-- Counterexample for C3: "Soft-deleted Applications cannot be mutated" is
false at a concrete input: an Application with `deleted_at = some 5` is
mutated by `update_application_status`, which returns `ok` with the status
changed to `SCREENED` and a history row appended. -/
theorem soft_deleted_mutation_counterexample :
    (sampleApp ApplicationStatus.SOURCED none none (some 5)).deleted_at =
      some 5 ∧
    update_application_status
        (sampleDb [sampleApp ApplicationStatus.SOURCED none none (some 5)]
          []) 1
        { status := ApplicationStatus.SCREENED, notes := none } 9 20 =
      .ok (sampleDb
        [{ sampleApp ApplicationStatus.SOURCED none none (some 5) with
           status := ApplicationStatus.SCREENED, screened_by := some 9,
           screened_at := some 20 }]
        [create_status_history 1 (some "sourced") "screened" 9 none 20]) :=
  ⟨rfl, rfl⟩

/-- Model of `findApplication` ignores every store component except `applications`. -/
theorem findApplication_congr (db1 db2 : Db)
    (happs : db1.applications = db2.applications) (i : Nat) :
    findApplication db1 i = findApplication db2 i := by
  unfold findApplication
  rw [happs]

/--
Claim C1, amended: The direct status-changing application endpoints —
status update, submit-to-client, reject — each append exactly one
`ApplicationStatusHistory` row recording `from_status` = the prior status,
`to_status` = the new status, the actor and the notes; a status change
performed as a side effect of creating an Interview appends **no** history
row (the application is promoted to `INTERVIEWING` with the history
untouched); and creating an Offer or a Joining never commits at all — the
`Offer(...)` constructor receives keyword arguments that are not `Offer`
columns (`TypeError`) and the `Joining(...)` arguments read a field the
schema does not define (`AttributeError`), so both endpoints fail after
validation, never promote the Application, and never append history.  The
unbroken-chain invariant therefore fails across the interview side-effect
transition.
-/
theorem history_append_direct_only :
    (∀ (db : Db) (i : Nat) (su : ApplicationStatusUpdate) (uid now : Nat)
        (app : Application) (db' : Db),
      findApplication db i = some app →
      update_application_status db i su uid now = .ok db' →
      db'.history = db.history ++
        [create_status_history i (some app.status.value) su.status.value uid
          su.notes now]) ∧
    (∀ (db : Db) (i : Nat) (sub : Option String) (uid : Nat) (today : Int)
        (now : Nat) (app : Application) (db' : Db),
      findApplication db i = some app →
      submit_to_client db i sub uid today now = .ok db' →
      db'.history = db.history ++
        [create_status_history i (some app.status.value)
          ApplicationStatus.SUBMITTED.value uid
          (some ("Submitted to client. " ++ sub.getD "")) now]) ∧
    (∀ (db : Db) (i : Nat) (rej : ApplicationReject) (uid now : Nat)
        (app : Application) (db' : Db),
      findApplication db i = some app →
      reject_application db i rej uid now = .ok db' →
      db'.history = db.history ++
        [create_status_history i (some app.status.value)
          ApplicationStatus.REJECTED.value uid
          (some ("Rejected: " ++ rej.rejection_reason)) now]) ∧
    (∀ (db : Db) (idata : InterviewCreate) (uid : Nat) (app : Application)
        (db' : Db),
      findApplication db idata.application_id = some app →
      create_interview db idata uid = .ok db' →
      db'.history = db.history ∧
      findApplication db' idata.application_id =
        some { app with status := ApplicationStatus.INTERVIEWING }) ∧
    (∀ (db : Db) (odata : OfferCreate) (uid : Nat) (ym : String) (db' : Db),
      create_offer db odata uid ym ≠ .ok db') ∧
    (∀ (db : Db) (jdata : JoiningCreate) (uid : Nat) (db' : Db),
      create_joining db jdata uid ≠ .ok db') := by
  refine ⟨?_, ?_, ?_, ?_, ?_, ?_⟩
  · intro db i su uid now app db' h hok
    unfold update_application_status at hok
    rw [h] at hok
    dsimp only at hok
    injection hok with hdb
    subst hdb
    rfl
  · intro db i sub uid today now app db' h hok
    unfold submit_to_client at hok
    rw [h] at hok
    dsimp only at hok
    split at hok
    · exact absurd hok (by simp)
    · split at hok
      · exact absurd hok (by simp)
      · injection hok with hdb
        subst hdb
        rfl
  · intro db i rej uid now app db' h hok
    unfold reject_application at hok
    rw [h] at hok
    dsimp only at hok
    injection hok with hdb
    subst hdb
    rfl
  · intro db idata uid app db' h hok
    unfold create_interview at hok
    rw [h] at hok
    dsimp only at hok
    split at hok
    · exact absurd hok (by simp)
    · injection hok with hdb
      subst hdb
      have happ1 : (if app.status ≠ ApplicationStatus.INTERVIEWING then
          { app with status := ApplicationStatus.INTERVIEWING }
        else app) = { app with status := ApplicationStatus.INTERVIEWING } := by
        by_cases hc : app.status = ApplicationStatus.INTERVIEWING
        · rw [if_neg (by simp [hc]), ← hc]
        · rw [if_pos hc]
      refine ⟨rfl, ?_⟩
      rw [happ1]
      exact findApplication_store_plain db idata.application_id app
        { app with status := ApplicationStatus.INTERVIEWING }
        (findApplication_id db idata.application_id app h) h
  · intro db odata uid ym db' hok
    unfold create_offer at hok
    split at hok
    · simp at hok
    · split at hok
      · simp at hok
      · split at hok
        · simp at hok
        · simp at hok
  · intro db jdata uid db' hok
    unfold create_joining at hok
    split at hok
    · simp at hok
    · split at hok
      · simp at hok
      · split at hok
        · simp at hok
        · simp at hok

/-- C1 fixture: a screened application with a well-chained two-row
history. -/
def c1App : Application := sampleApp ApplicationStatus.SCREENED (some 10) none none

/-- C1 fixture: chained history `none → sourced → screened`. -/
def c1Hist0 : List ApplicationStatusHistory :=
  [create_status_history 1 none "sourced" 7 (some "Application created") 0,
   create_status_history 1 (some "sourced") "screened" 7 none 10]

/-- C1 fixture: the store before the interview is created. -/
def c1Db0 : Db := sampleDb [c1App] c1Hist0

/-- C1 fixture: the interview payload (`round_name` is a required
non-empty string in `InterviewCreate`). -/
def c1IData : InterviewCreate :=
  { application_id := 1, round_number := 1,
    round_name := "Technical Round 1", scheduled_date := some 5,
    interviewer_name := some "Ivy", is_client_interview := false,
    additional_notes := none }

/-- C1 fixture: the interview row `create_interview` inserts. -/
def c1Interview : Interview :=
  { application_id := 1
    round_number := 1
    round_name := "Technical Round 1"
    scheduled_date := some 5
    interviewer_name := some "Ivy"
    is_client_interview := false
    status := InterviewStatus.SCHEDULED
    next_round_scheduled := false
    additional_notes := none
    created_by := 7 }

/-- C1 fixture: the store after `create_interview` — status promoted to
`INTERVIEWING`, history untouched. -/
def c1Db1 : Db :=
  { sampleDb [{ c1App with status := ApplicationStatus.INTERVIEWING }]
      c1Hist0 with
    interviews := [c1Interview] }

/-- C1 fixture: the store after a subsequent direct status update to
`OFFERED`. -/
def c1Db2 : Db :=
  { sampleDb [{ c1App with status := ApplicationStatus.OFFERED }]
      (c1Hist0 ++
        [create_status_history 1 (some "interviewing") "offered" 7 none
          30]) with
    interviews := c1Db1.interviews }

/-- Counterexample for C1: At a concrete input, `create_interview` changes
the Application's status (`SCREENED → INTERVIEWING`) while appending **no**
history row, so "every operation that changes an Application's status
appends exactly one ApplicationStatusHistory row … also when the status
change is a side effect of creating an Interview" is false; moreover after
a subsequent direct transition the history chain is broken: row 1 has
`to_status = "screened"` while row 2 has `from_status = "interviewing"`. -/
theorem create_interview_skips_history_counterexample :
    c1App.status = ApplicationStatus.SCREENED ∧
    create_interview c1Db0 c1IData 7 = .ok c1Db1 ∧
    findApplication c1Db1 1 =
      some { c1App with status := ApplicationStatus.INTERVIEWING } ∧
    c1Db1.history = c1Db0.history ∧
    update_application_status c1Db1 1
        { status := ApplicationStatus.OFFERED, notes := none } 7 30 =
      .ok c1Db2 ∧
    (c1Db2.history.map (fun r => r.to_status)).get? 1 = some "screened" ∧
    (c1Db2.history.map (fun r => r.from_status)).get? 2 =
      some (some "interviewing") :=
  ⟨rfl, rfl, rfl, rfl, rfl, rfl, rfl⟩

/-- Witness for `history_append_direct_only`, applying its
`create_interview` conjunct at the concrete C1 fixture. -/
theorem history_append_direct_only_witness :
    c1Db1.history = c1Db0.history ∧
    findApplication c1Db1 1 =
      some { c1App with status := ApplicationStatus.INTERVIEWING } :=
  history_append_direct_only.2.2.2.1 c1Db0 c1IData 7 c1App c1Db1 rfl rfl

/-! ## Authentication (`app/core/security.py`, `app/api/deps.py`)

A JWT is modelled as its claim set plus a flag saying whether its signature
verifies under the server secret; `jose.jwt.decode` raises `JWTError` on a
bad signature or an expired `exp` (expired iff `exp < now`), which
`decode_token` maps to `None`.
-/

/-- The claim set of a token: `sub`, the `type` discriminator (absent on
access tokens, `"refresh"` on refresh tokens), and `exp`. -/
structure TokenPayload where
  sub : Option String
  type : Option String
  exp : Nat
deriving DecidableEq, Repr

/-- A presented bearer token. -/
structure Token where
  signature_valid : Bool
  payload : TokenPayload
deriving DecidableEq, Repr

/-- Model of `decode_token` (security.py lines 98-112): signature and expiry check,
no type check. -/
def decode_token (token : Token) (now : Nat) : Option TokenPayload :=
  if token.signature_valid = false then none
  else if token.payload.exp < now then none
  else some token.payload

/-- Model of `decode_access_token` (security.py lines 115-125): delegates to
`decode_token` unchanged — in particular it performs **no** token-type
check. -/
def decode_access_token (token : Token) (now : Nat) : Option TokenPayload :=
  decode_token token now

/-- Model of `decode_refresh_token` (security.py lines 128-147): decode plus a
`type == "refresh"` check. -/
def decode_refresh_token (token : Token) (now : Nat) : Option TokenPayload :=
  match decode_token token now with
  | none => none
  | some payload =>
    if payload.type ≠ some "refresh" then none else some payload

/-- Model of `verify_token_type` (security.py lines 169-194). -/
def verify_token_type (token : Token) (now : Nat) (token_type : String) :
    Bool :=
  match decode_token token now with
  | none => false
  | some payload =>
    if token_type = "access" then
      payload.type == none || payload.type == some "access"
    else if token_type = "refresh" then
      payload.type == some "refresh"
    else false

/-- The 401 produced by `get_current_user`'s `credentials_exception`. -/
inductive AuthError
  | unauthorized
deriving DecidableEq, Repr

/-- Python's `int(user_id_str)` on a subject claim: succeeds exactly on a
non-empty all-digit string (ids are minted as `str(user.id)`); any other
string raises `ValueError`, caught by the guard (modelled by `none`). -/
def parse_int (s : String) : Option Nat :=
  if s.data ≠ [] ∧ s.data.all (fun c => c.isDigit) then
    some (s.data.foldl (fun n c => n * 10 + (c.toNat - 48)) 0)
  else none

/-- Model of `get_current_user` from `app/api/deps.py` (lines 20-71): decode the
bearer token with `decode_access_token`, read `sub`, convert it with
`int(...)` (modelled by `parse_int`), and look the user up by id.
Note the lookup filters on `id` only and the result is returned as-is:
neither `is_active` nor `deleted_at` nor the token type is consulted. -/
def get_current_user (token : Token) (users : List User) (now : Nat) :
    Except AuthError User :=
  match decode_access_token token now with
  | none => .error .unauthorized
  | some payload =>
    match payload.sub with
    | none => .error .unauthorized
    | some user_id_str =>
      match parse_int user_id_str with
      | none => .error .unauthorized
      | some user_id =>
        match users.find? (fun u => u.id == user_id) with
        | none => .error .unauthorized
        | some user => .ok user

/--
Claim C4, amended: `get_current_user` yields a user identity **iff** the
token's signature verifies, it is unexpired, and its `sub` claim parses to
an integer id for which a user row exists.  Nothing else is checked: the
token type, the user's `is_active` flag and `deleted_at` are not consulted,
so inactive and soft-deleted users are authenticated rather than rejected
with Unauthorized.
-/
theorem get_current_user_characterization (token : Token)
    (users : List User) (now : Nat) (user : User) :
    get_current_user token users now = .ok user ↔
      token.signature_valid = true ∧ ¬ token.payload.exp < now ∧
      ∃ s uid, token.payload.sub = some s ∧ parse_int s = some uid ∧
        users.find? (fun u => u.id == uid) = some user := by
  constructor
  · intro h
    by_cases hsig : token.signature_valid = true
    · by_cases hexp : token.payload.exp < now
      · simp [get_current_user, decode_access_token, decode_token, hsig,
          hexp] at h
      · rcases hsubv : token.payload.sub with _ | s
        · simp [get_current_user, decode_access_token, decode_token, hsig,
            hexp, hsubv] at h
        · rcases hnat : parse_int s with _ | uid
          · simp [get_current_user, decode_access_token, decode_token,
              hsig, hexp, hsubv, hnat] at h
          · rcases hfind : users.find? (fun u => u.id == uid) with _ | u
            · simp [get_current_user, decode_access_token, decode_token,
                hsig, hexp, hsubv, hnat, hfind] at h
            · simp [get_current_user, decode_access_token, decode_token,
                hsig, hexp, hsubv, hnat, hfind] at h
              exact ⟨hsig, hexp, s, uid, rfl, hnat, by rw [hfind, h]⟩
    · have hsig' : token.signature_valid = false := by simpa using hsig
      simp [get_current_user, decode_access_token, decode_token, hsig'] at h
  · rintro ⟨hsig, hexp, s, uid, hsub, hnat, hfind⟩
    simp [get_current_user, decode_access_token, decode_token, hsig, hexp,
      hsub, hnat, hfind]

/-- C4/C5 fixture: an inactive user. -/
def authUserInactive : User :=
  { id := 1, email := "a@example.com", full_name := "A",
    role := UserRole.RECRUITER, is_active := false, deleted_at := none }

/-- C4/C5 fixture: a soft-deleted user. -/
def authUserDeleted : User :=
  { id := 2, email := "b@example.com", full_name := "B",
    role := UserRole.RECRUITER, is_active := true, deleted_at := some 5 }

/-- C4/C5 fixture: an active, live user. -/
def authUserActive : User :=
  { id := 3, email := "c@example.com", full_name := "C",
    role := UserRole.RECRUITER, is_active := true, deleted_at := none }

/-- C4 fixture: a well-formed unexpired access token for the given
subject. -/
def accessTok (s : String) : Token :=
  { signature_valid := true,
    payload := { sub := some s, type := none, exp := 100 } }

/-- C5 fixture: a well-formed unexpired **refresh** token for user 3. -/
def refreshTok : Token :=
  { signature_valid := true,
    payload := { sub := some "3", type := some "refresh", exp := 100 } }

/-- Counterexample for C4: The claim that `get_current_user` fails with
Unauthorized for an inactive or soft-deleted user is false at a concrete
input: both are authenticated. -/
theorem get_current_user_inactive_counterexample :
    authUserInactive.is_active = false ∧
    get_current_user (accessTok "1") [authUserInactive, authUserDeleted] 0 =
      .ok authUserInactive ∧
    authUserDeleted.deleted_at = some 5 ∧
    get_current_user (accessTok "2") [authUserInactive, authUserDeleted] 0 =
      .ok authUserDeleted :=
  ⟨rfl, rfl, rfl, rfl⟩

/--
Claim C5, amended: `decode_access_token` performs no token-type check, so a
valid, unexpired **refresh** token (one `verify_token_type … "refresh"`
accepts) presented as the bearer credential of a protected API call is
accepted by `get_current_user` whenever its subject resolves to an existing
user — refresh tokens do authorize API calls; the type discriminator is
only enforced by `verify_token_type` at the token-refresh endpoint.
-/
theorem refresh_token_accepted_by_guard (token : Token) (users : List User)
    (now : Nat) (user : User) (s : String) (uid : Nat)
    (hsig : token.signature_valid = true)
    (hexp : ¬ token.payload.exp < now)
    (htype : token.payload.type = some "refresh")
    (hsub : token.payload.sub = some s) (hnat : parse_int s = some uid)
    (hfind : users.find? (fun u => u.id == uid) = some user) :
    verify_token_type token now "refresh" = true ∧
    get_current_user token users now = .ok user := by
  constructor
  · simp [verify_token_type, decode_token, hsig, hexp, htype]
  · simp [get_current_user, decode_access_token, decode_token, hsig, hexp,
      hsub, hnat, hfind]

/-- Witness for `refresh_token_accepted_by_guard` at the concrete refresh
token and user 3. -/
theorem refresh_token_accepted_by_guard_witness :
    verify_token_type refreshTok 0 "refresh" = true ∧
    get_current_user refreshTok [authUserActive] 0 = .ok authUserActive :=
  refresh_token_accepted_by_guard refreshTok [authUserActive] 0
    authUserActive "3" 3 rfl (by decide) rfl rfl (by decide) rfl

/-- Counterexample for C5: At a concrete input, a valid unexpired refresh
token authenticates a protected call: the claim that it is always rejected
with Unauthorized is false. -/
theorem refresh_token_rejected_counterexample :
    refreshTok.payload.type = some "refresh" ∧
    verify_token_type refreshTok 0 "refresh" = true ∧
    get_current_user refreshTok [authUserActive] 0 = .ok authUserActive :=
  ⟨rfl, rfl, rfl⟩

/-! ## Permission matrix (`app/core/permissions.py`) -/

/-- Model of `Permission` from `app/core/permissions.py` (all 48 members). -/
inductive Permission
  | CREATE_USER
  | VIEW_USER
  | UPDATE_USER
  | DELETE_USER
  | MANAGE_ROLES
  | CREATE_CLIENT
  | VIEW_CLIENT
  | UPDATE_CLIENT
  | DELETE_CLIENT
  | CREATE_PITCH
  | VIEW_PITCH
  | UPDATE_PITCH
  | DELETE_PITCH
  | SEND_PITCH
  | APPROVE_PITCH
  | CREATE_JD
  | VIEW_JD
  | UPDATE_JD
  | DELETE_JD
  | ASSIGN_JD
  | CREATE_CANDIDATE
  | VIEW_CANDIDATE
  | UPDATE_CANDIDATE
  | DELETE_CANDIDATE
  | UPLOAD_RESUME
  | CREATE_APPLICATION
  | VIEW_APPLICATION
  | UPDATE_APPLICATION
  | DELETE_APPLICATION
  | SUBMIT_APPLICATION
  | CREATE_INTERVIEW
  | VIEW_INTERVIEW
  | UPDATE_INTERVIEW
  | DELETE_INTERVIEW
  | SUBMIT_FEEDBACK
  | CREATE_OFFER
  | VIEW_OFFER
  | UPDATE_OFFER
  | DELETE_OFFER
  | SEND_OFFER
  | APPROVE_OFFER
  | CREATE_JOINING
  | VIEW_JOINING
  | UPDATE_JOINING
  | DELETE_JOINING
  | VIEW_REPORTS
  | EXPORT_DATA
  | VIEW_ANALYTICS
deriving DecidableEq, BEq, Repr

/-- Model of `ROLE_PERMISSIONS` (permissions.py lines 112-288), one list per role,
in source order.  (A Python dict lookup with `.get(role, [])`; every role
is a key, so the default never fires for a well-typed role.) -/
def ROLE_PERMISSIONS : UserRole → List Permission
  | UserRole.ADMIN =>
    [Permission.CREATE_USER, Permission.VIEW_USER, Permission.UPDATE_USER,
     Permission.DELETE_USER, Permission.MANAGE_ROLES,
     Permission.CREATE_CLIENT, Permission.VIEW_CLIENT,
     Permission.UPDATE_CLIENT, Permission.DELETE_CLIENT,
     Permission.CREATE_PITCH, Permission.VIEW_PITCH,
     Permission.UPDATE_PITCH, Permission.DELETE_PITCH,
     Permission.SEND_PITCH, Permission.APPROVE_PITCH,
     Permission.CREATE_JD, Permission.VIEW_JD, Permission.UPDATE_JD,
     Permission.DELETE_JD, Permission.ASSIGN_JD,
     Permission.CREATE_CANDIDATE, Permission.VIEW_CANDIDATE,
     Permission.UPDATE_CANDIDATE, Permission.DELETE_CANDIDATE,
     Permission.UPLOAD_RESUME,
     Permission.CREATE_APPLICATION, Permission.VIEW_APPLICATION,
     Permission.UPDATE_APPLICATION, Permission.DELETE_APPLICATION,
     Permission.SUBMIT_APPLICATION,
     Permission.CREATE_INTERVIEW, Permission.VIEW_INTERVIEW,
     Permission.UPDATE_INTERVIEW, Permission.DELETE_INTERVIEW,
     Permission.SUBMIT_FEEDBACK,
     Permission.CREATE_OFFER, Permission.VIEW_OFFER,
     Permission.UPDATE_OFFER, Permission.DELETE_OFFER,
     Permission.SEND_OFFER, Permission.APPROVE_OFFER,
     Permission.CREATE_JOINING, Permission.VIEW_JOINING,
     Permission.UPDATE_JOINING, Permission.DELETE_JOINING,
     Permission.VIEW_REPORTS, Permission.EXPORT_DATA,
     Permission.VIEW_ANALYTICS]
  | UserRole.RECRUITER =>
    [Permission.VIEW_CLIENT,
     Permission.VIEW_PITCH,
     Permission.VIEW_JD, Permission.UPDATE_JD,
     Permission.CREATE_CANDIDATE, Permission.VIEW_CANDIDATE,
     Permission.UPDATE_CANDIDATE, Permission.UPLOAD_RESUME,
     Permission.CREATE_APPLICATION, Permission.VIEW_APPLICATION,
     Permission.UPDATE_APPLICATION, Permission.SUBMIT_APPLICATION,
     Permission.CREATE_INTERVIEW, Permission.VIEW_INTERVIEW,
     Permission.UPDATE_INTERVIEW, Permission.SUBMIT_FEEDBACK,
     Permission.VIEW_OFFER,
     Permission.VIEW_JOINING,
     Permission.VIEW_REPORTS]
  | UserRole.ACCOUNT_MANAGER =>
    [Permission.CREATE_CLIENT, Permission.VIEW_CLIENT,
     Permission.UPDATE_CLIENT,
     Permission.CREATE_PITCH, Permission.VIEW_PITCH,
     Permission.UPDATE_PITCH, Permission.SEND_PITCH,
     Permission.CREATE_JD, Permission.VIEW_JD, Permission.UPDATE_JD,
     Permission.ASSIGN_JD,
     Permission.VIEW_CANDIDATE,
     Permission.VIEW_APPLICATION, Permission.SUBMIT_APPLICATION,
     Permission.VIEW_INTERVIEW,
     Permission.VIEW_OFFER, Permission.CREATE_OFFER,
     Permission.UPDATE_OFFER, Permission.SEND_OFFER,
     Permission.VIEW_JOINING,
     Permission.VIEW_REPORTS, Permission.VIEW_ANALYTICS]
  | UserRole.BD_SALES =>
    [Permission.VIEW_CLIENT, Permission.CREATE_CLIENT,
     Permission.CREATE_PITCH, Permission.VIEW_PITCH,
     Permission.UPDATE_PITCH, Permission.SEND_PITCH,
     Permission.VIEW_JD,
     Permission.VIEW_CANDIDATE,
     Permission.VIEW_APPLICATION,
     Permission.VIEW_REPORTS]
  | UserRole.FINANCE =>
    [Permission.VIEW_CLIENT,
     Permission.VIEW_PITCH,
     Permission.VIEW_JD,
     Permission.VIEW_CANDIDATE,
     Permission.VIEW_APPLICATION,
     Permission.VIEW_OFFER,
     Permission.VIEW_JOINING,
     Permission.VIEW_REPORTS, Permission.EXPORT_DATA]
  | UserRole.CLIENT =>
    [Permission.VIEW_JD,
     Permission.VIEW_CANDIDATE,
     Permission.VIEW_APPLICATION,
     Permission.VIEW_INTERVIEW]

/-- Model of `get_user_permissions` (permissions.py lines 291-301). -/
def get_user_permissions (role : UserRole) : List Permission :=
  ROLE_PERMISSIONS role

/-- Model of `has_permission` (permissions.py lines 304-316):
`required_permission in ROLE_PERMISSIONS.get(user_role, [])`. -/
def has_permission (user_role : UserRole)
    (required_permission : Permission) : Bool :=
  (get_user_permissions user_role).contains required_permission

/-- The 403 produced by `PermissionChecker`. -/
inductive PermissionError
  | permissionDenied
deriving DecidableEq, Repr

/-- Model of `PermissionChecker.__call__` from `app/api/deps.py` (lines 95-119):
admin bypass first, then the matrix. -/
def PermissionChecker_call (required_permission : Permission)
    (current_user : User) : Except PermissionError User :=
  if current_user.is_admin then .ok current_user
  else if has_permission current_user.role required_permission then
    .ok current_user
  else .error .permissionDenied

/--
Claim C8: `has_permission` is a pure total Lean function into `Bool` (it can
neither error nor diverge, and unknown combinations simply yield `false`
from the list-membership test); determinism is witnessed by the first
conjunct, and the `ADMIN` role is granted every one of the 48 permissions.
-/
theorem has_permission_total_admin_full :
    (∀ (r : UserRole) (p : Permission),
      has_permission r p = has_permission r p) ∧
    (∀ p : Permission, has_permission UserRole.ADMIN p = true) := by
  refine ⟨fun _ _ => rfl, ?_⟩
  intro p
  cases p <;> rfl

/-- Witness for `get_current_user_characterization`, instantiating its
backward direction at a concrete token and (inactive) user. -/
theorem get_current_user_characterization_witness :
    get_current_user (accessTok "1") [authUserInactive] 0 =
      .ok authUserInactive :=
  (get_current_user_characterization (accessTok "1") [authUserInactive] 0
    authUserInactive).mpr ⟨rfl, by decide, "1", 1, rfl, by decide, rfl⟩
